import Mathlib

/-!
Verification of the timemachine firmware core against its specification.

Shallow embedding conventions:
* C `uint64_t` pixel blocks are `Nat` values whose bits 0..63 carry the data;
  all bit manipulation is done with `>>>`, `<<<`, `&&&`, `|||` exactly as in
  the C source, so no overflow can occur (only ORs of single shifted bits).
* FreeRTOS ticks are identified with milliseconds (`pdMS_TO_TICKS` is the
  identity at the default tick rate used for modelling); `TickType_t`
  subtraction `now - last` is `Nat` subtraction, which agrees with the
  unsigned C subtraction whenever time is monotone (`last ≤ now`).
* Strings are lists of byte values (`List Nat`), fonts are width-lookup
  functions: `get_text_width` in `display_max7219.c` only reads the `width`
  field of the returned `font_char_t`, so the embedding of the font lookups
  returns that width (the glyph column bytes are never consulted by the
  width computation the claims are about).
-/

namespace Timemachine

set_option maxRecDepth 10000

/-! ## display_max7219.c — geometry transform -/

/-- Number of cascaded MAX7219 devices (`MAX7219_CASCADE` in
`display_max7219.c`). -/
def MAX7219_CASCADE : Nat := 4

/-- `transpose_8x8` from `display_max7219.c`: for each `row, col` in `[0,8)`,
the bit of `input` at index `row * 8 + col` is OR-ed into the output at index
`(7 - col) * 8 + row` (a 90° counter-clockwise rotation of the 8×8 block). -/
def transpose_8x8 (input : Nat) : Nat :=
  (List.range 8).foldl (fun output row =>
    (List.range 8).foldl (fun output col =>
      output ||| (((input >>> (row * 8 + col)) &&& 1) <<< ((7 - col) * 8 + row)))
      output) 0

/-- The sequence of `max7219_draw_image_8x8` calls made by
`max7219_driver_render` in `display_max7219.c` after the scene has been
composed into `s_display_buffer`: for `i = 0..3` it transmits, at position
`i * 8`, the transposed buffer block of index `MAX7219_CASCADE - 1 - i`. -/
def max7219_driver_render_wire (s_display_buffer : List Nat) : List (Nat × Nat) :=
  (List.range MAX7219_CASCADE).map (fun i =>
    (i * 8, transpose_8x8 (s_display_buffer.getD (MAX7219_CASCADE - 1 - i) 0)))

/-- `max7219_draw_image_8x8` in the MAX7219 backend (`mock/max7219.c`) maps
its `pos` argument to the physical device index `pos / 8`. -/
def max7219_device_index (pos : Nat) : Nat := pos / 8


/-! ## Fonts (`default_font.c`, `dotmatrix_small_font.c`) and text width

`get_text_width` in `display_max7219.c` only reads the `width` field of the
`font_char_t` returned by the lookups, so the lookups are embedded as the
width they return (`default_font_get_char` never returns `NULL`). -/

/-- `DEFAULT_FONT_CHAR_WIDTH` from `default_font.c` (256 entries). -/
def DEFAULT_FONT_CHAR_WIDTH : List Nat :=
  [1, 1, 1, 1, 1, 1, 1, 1, 1, 1, 1, 1, 1, 1, 1, 1,
   1, 1, 1, 1, 1, 1, 1, 1, 1, 1, 1, 1, 1, 1, 1, 1,
   1, 1, 1, 13, 16, 6, 1, 1, 13, 17, 20, 1, 3, 2, 1, 15,
   3, 3, 3, 3, 3, 3, 3, 3, 3, 3, 1, 1, 1, 9, 1, 7,
   1, 3, 3, 3, 3, 3, 3, 3, 3, 1, 3, 3, 3, 3, 3, 3,
   3, 3, 3, 3, 3, 3, 3, 3, 3, 3, 3, 4, 3, 4, 1, 3,
   4, 3, 3, 3, 3, 3, 3, 3, 3, 3, 3, 3, 3, 3, 3, 3,
   3, 3, 3, 3, 3, 3, 3, 3, 3, 3, 3, 16, 16, 16, 16, 0,
   0, 0, 0, 0, 3, 3, 3, 7, 3, 7, 8, 8, 8, 0, 0, 0,
   0, 2, 3, 3, 3, 3, 3, 3, 3, 3, 3, 0, 0, 0, 0, 0,
   0, 5, 5, 5, 5, 0, 0, 0, 0, 8, 8, 8, 0, 0, 5, 5,
   5, 5, 6, 7, 7, 7, 7, 7, 0, 0, 3, 0, 0, 0, 0, 0] ++
  List.replicate 64 0

/-- `DOTMATRIX_SMALL_CHAR_WIDTH` from `dotmatrix_small_font.c`: width 3 for
the letters `A`–`Z` (65–90) and `a`–`z` (97–122), 0 everywhere else. -/
def DOTMATRIX_SMALL_CHAR_WIDTH : List Nat :=
  List.replicate 65 0 ++ List.replicate 26 3 ++ List.replicate 6 0 ++
  List.replicate 26 3 ++ List.replicate 133 0

/-- Width field of the `font_char_t` returned by `default_font_get_char` in
`default_font.c`: `0` for an undefined character, otherwise the base width
plus the appended empty spacing column. -/
def default_font_get_char_width (ch : Nat) : Nat :=
  let base_width := DEFAULT_FONT_CHAR_WIDTH.getD ch 0
  if base_width = 0 then 0 else base_width + 1

/-- `font_t` from `fonts/font.h`: a font is the pair of lookup operations,
embedded by the widths they return. -/
structure font_t where
  get_char : Nat → Nat
  get_char_last : Nat → Nat

/-- `font_default` from `default_font.c`: `get_char_last` is the very same
function as `get_char`. -/
def font_default : font_t :=
  { get_char := default_font_get_char_width,
    get_char_last := default_font_get_char_width }

/-- Width returned by `dotmatrix_small_font_get_char` in
`dotmatrix_small_font.c`: uncovered characters fall back to the default
font; covered characters get the base width plus the roof spacing column. -/
def dotmatrix_small_font_get_char_width (ch : Nat) : Nat :=
  let base_width := DOTMATRIX_SMALL_CHAR_WIDTH.getD ch 0
  if base_width = 0 then default_font_get_char_width ch else base_width + 1

/-- Width returned by `dotmatrix_small_font_get_char_last` in
`dotmatrix_small_font.c`: uncovered characters fall back to the default
font's `get_char_last`; covered characters get the base width WITHOUT the
spacing column. -/
def dotmatrix_small_font_get_char_last_width (ch : Nat) : Nat :=
  let base_width := DOTMATRIX_SMALL_CHAR_WIDTH.getD ch 0
  if base_width = 0 then font_default.get_char_last ch else base_width

/-- `font_dotmatrix_small` from `dotmatrix_small_font.c`. -/
def font_dotmatrix_small : font_t :=
  { get_char := dotmatrix_small_font_get_char_width,
    get_char_last := dotmatrix_small_font_get_char_last_width }

/-- `get_text_width` from `display_max7219.c`: walks the string, using
`get_char_last` for the last character and `get_char` for all others, and
adds each returned width when it is positive. -/
def get_text_width (text : List Nat) (font : font_t) : Nat :=
  match text with
  | [] => 0
  | ch :: rest =>
      let w := if rest.isEmpty then font.get_char_last ch else font.get_char ch
      (if 0 < w then w else 0) + get_text_width rest font

/-- Modelled from the spec sentence the claim cites (measurement step 1 of
the Scene Composer): text width = sum of `get_char` widths of every
character but the last, plus the `get_char_last` width of the last
character. Stated as a separate definition only to compare `get_text_width`
against it. -/
def text_width_spec (text : List Nat) (font : font_t) : Nat :=
  (text.dropLast.map font.get_char).sum + font.get_char_last (text.getLastD 0)

/-! ## Gesture classifier (`touch_sensor.c`)

The classifier state is the static `s_state` of `touch_sensor.c` together
with the FreeRTOS one-shot timer it owns.  The timer is modelled by three
fields: whether it is armed, its current period, and (when armed) its
absolute expiry time.  FreeRTOS semantics used by the embedding:
* `xTimerStart`/`xTimerStartFromISR` arm the timer with its current period;
* `xTimerStopFromISR` disarms it;
* `xTimerChangePeriod` sets the period and also arms the timer (calling it
  on a dormant timer starts the timer — documented FreeRTOS behaviour);
* when the callback of an expired one-shot timer runs, the timer is dormant
  until a call inside the callback re-arms it. -/

/-- The gesture events posted by `touch_sensor.c`
(`INPUT_TAP`, `INPUT_LONG_PRESS`, `INPUT_RELEASE`). -/
inductive GestureEvent where
  | INPUT_TAP
  | INPUT_LONG_PRESS
  | INPUT_RELEASE
deriving DecidableEq, Repr

/-- `LONG_PRESS_MS` from `touch_sensor.c`: the long-press threshold T. -/
def LONG_PRESS_MS : Nat := 200

/-- The 50 ms polling period used once a long press has been detected
(`xTimerChangePeriod(timer, pdMS_TO_TICKS(50), 0)` in `touch_sensor.c`). -/
def POLL_PERIOD_MS : Nat := 50

/-- The mutable classifier state of `touch_sensor.c` (`s_state` plus its
one-shot timer). -/
structure TouchState where
  last_touch_time : Nat
  is_pressed : Bool
  long_press_detected : Bool
  timer_armed : Bool
  timer_period : Nat
  timer_expiry : Nat
deriving DecidableEq, Repr

/-- `release_timer_callback` from `touch_sensor.c`, run when the one-shot
timer expires at time `now`; `is_touch_active` is the GPIO level it samples.
Returns the new state and the list of posted events. -/
def release_timer_callback (now : Nat) (is_touch_active : Bool)
    (s : TouchState) : TouchState × List GestureEvent :=
  if !is_touch_active then
    if s.long_press_detected then
      ({ s with is_pressed := false, long_press_detected := false,
                timer_period := LONG_PRESS_MS, timer_armed := true,
                timer_expiry := now + LONG_PRESS_MS },
       [GestureEvent.INPUT_RELEASE])
    else if s.is_pressed then
      ({ s with is_pressed := false }, [GestureEvent.INPUT_TAP])
    else
      (s, [])
  else
    if !s.long_press_detected then
      ({ s with long_press_detected := true,
                timer_period := POLL_PERIOD_MS, timer_armed := true,
                timer_expiry := now + POLL_PERIOD_MS },
       [GestureEvent.INPUT_LONG_PRESS])
    else
      ({ s with timer_armed := true,
                timer_expiry := now + s.timer_period }, [])

/-- `gpio_isr_handler` from `touch_sensor.c`, run on a GPIO edge at time
`now` with sampled level `is_touch_active`; `debounce_ms` is
`config.debounce_ms`.  Returns the new state and the posted events. -/
def gpio_isr_handler (debounce_ms : Nat) (now : Nat) (is_touch_active : Bool)
    (s : TouchState) : TouchState × List GestureEvent :=
  if now - s.last_touch_time < debounce_ms then
    (s, [])
  else
    let s1 := { s with last_touch_time := now }
    if is_touch_active && !s.is_pressed then
      ({ s1 with is_pressed := true, long_press_detected := false,
                 timer_armed := true,
                 timer_expiry := now + s.timer_period }, [])
    else if !is_touch_active && s.is_pressed then
      let s2 := { s1 with is_pressed := false, timer_armed := false }
      if s.long_press_detected then (s2, [GestureEvent.INPUT_RELEASE])
      else (s2, [GestureEvent.INPUT_TAP])
    else
      (s1, [])

/-- A stimulus delivered to the classifier: a GPIO edge interrupt or an
expiry of the one-shot timer, each carrying its time and the GPIO level
sampled by the handler. -/
inductive Stim where
  | edge (t : Nat) (level : Bool)
  | fire (t : Nat) (level : Bool)
deriving DecidableEq, Repr

/-- Time of a stimulus. -/
def Stim.time : Stim → Nat
  | .edge t _ => t
  | .fire t _ => t

/-- One stimulus step: an edge runs the ISR; a timer expiry disarms the
one-shot timer and runs its callback. -/
def touch_step (debounce_ms : Nat) (s : TouchState) :
    Stim → TouchState × List GestureEvent
  | .edge t level => gpio_isr_handler debounce_ms t level s
  | .fire t level =>
      release_timer_callback t level { s with timer_armed := false }

/-- Run a list of stimuli, concatenating the posted events. -/
def touch_run (debounce_ms : Nat) (s : TouchState) :
    List Stim → TouchState × List GestureEvent
  | [] => (s, [])
  | stim :: rest =>
      let step := touch_step debounce_ms s stim
      let next := touch_run debounce_ms step.1 rest
      (next.1, step.2 ++ next.2)

/-- Realizability of a stimulus list from state `s` at time `now`: times are
monotone, a `fire` happens exactly when the armed timer reaches its expiry,
and no stimulus jumps past a pending expiry without the timer firing. -/
def touch_valid (debounce_ms : Nat) (s : TouchState) (now : Nat) :
    List Stim → Bool
  | [] => true
  | stim :: rest =>
      let ok :=
        match stim with
        | .edge t _ => now ≤ t && (!s.timer_armed || t ≤ s.timer_expiry)
        | .fire t _ => now ≤ t && s.timer_armed && t == s.timer_expiry
      ok && touch_valid debounce_ms (touch_step debounce_ms s stim).1
              stim.time rest

/-- The state of the classifier right after `touch_sensor_init`:
`last_touch_time = 0`, not pressed, no long press detected, and the one-shot
timer created dormant with period `LONG_PRESS_MS`. -/
def touch_init_state : TouchState :=
  { last_touch_time := 0, is_pressed := false, long_press_detected := false,
    timer_armed := false, timer_period := LONG_PRESS_MS, timer_expiry := 0 }

/-! ## Panel lifecycle manager (`panel_manager.c`)

Panel ids (`panel_id_t`) are embedded as `Nat`.  The state is the part of
`s_state` the cited operations touch: the ordered list of registered panel
ids, the active index, and the inactivity counter.  `esp_event_post` calls
become elements of the returned event list. -/

/-- `panel_manager_config_t` from `panel_manager.h`. -/
structure panel_manager_config_t where
  default_panel : Nat
  inactivity_timeout_s : Nat

/-- The registry state of `panel_manager.c` (`s_state.panels[0..panel_count)`
as a list of ids, plus `active_panel_idx` and `inactivity_counter`). -/
structure PanelManagerState where
  panels : List Nat
  active_panel_idx : Nat
  inactivity_counter : Nat
deriving DecidableEq, Repr

/-- The bus events posted by `panel_manager.c`. -/
inductive PanelEvent where
  | PANEL_ACTIVATED (id : Nat)
  | PANEL_DEACTIVATED (id : Nat)
deriving DecidableEq, Repr

/-- `activate_panel` from `panel_manager.c`: clears the inactivity counter
and posts `PANEL_ACTIVATED`. -/
def activate_panel (s : PanelManagerState) (panel_id : Nat) :
    PanelManagerState × List PanelEvent :=
  ({ s with inactivity_counter := 0 }, [PanelEvent.PANEL_ACTIVATED panel_id])

/-- `deactivate_panel` from `panel_manager.c`: posts `PANEL_DEACTIVATED`. -/
def deactivate_panel (s : PanelManagerState) (panel_id : Nat) :
    PanelManagerState × List PanelEvent :=
  (s, [PanelEvent.PANEL_DEACTIVATED panel_id])

/-- `next_panel` from `panel_manager.c`, invoked by the `INPUT_TAP` handler:
deactivates the current panel, advances the active index circularly, and
activates the new panel (which clears the inactivity counter). -/
def next_panel (s : PanelManagerState) : PanelManagerState × List PanelEvent :=
  if s.panels.length = 0 then (s, [])
  else
    let current_panel_id := s.panels.getD s.active_panel_idx 0
    let step1 := deactivate_panel s current_panel_id
    let s1 := { step1.1 with
      active_panel_idx := (step1.1.active_panel_idx + 1) % step1.1.panels.length }
    let next_panel_id := s1.panels.getD s1.active_panel_idx 0
    let step2 := activate_panel s1 next_panel_id
    (step2.1, step1.2 ++ step2.2)

/-- `inactivity_timer_callback` from `panel_manager.c`, run once per second:
increments the counter; at the timeout it transitions back to the default
panel when a different panel is active, and resets the counter in every
branch. -/
def inactivity_timer_callback (config : panel_manager_config_t)
    (s : PanelManagerState) : PanelManagerState × List PanelEvent :=
  let s1 := { s with inactivity_counter := s.inactivity_counter + 1 }
  if config.inactivity_timeout_s ≤ s1.inactivity_counter then
    if s1.panels.length = 0 then
      ({ s1 with inactivity_counter := 0 }, [])
    else
      let current_panel_id := s1.panels.getD s1.active_panel_idx 0
      if current_panel_id ≠ config.default_panel then
        match s1.panels.findIdx? (fun p => p = config.default_panel) with
        | some i =>
            let step1 := deactivate_panel s1 current_panel_id
            let s2 := { step1.1 with active_panel_idx := i }
            let step2 := activate_panel s2 config.default_panel
            ({ step2.1 with inactivity_counter := 0 }, step1.2 ++ step2.2)
        | none => ({ s1 with inactivity_counter := 0 }, [])
      else
        ({ s1 with inactivity_counter := 0 }, [])
  else
    (s1, [])

/-- Deliver `n` consecutive `Tap` events (each runs `next_panel` via
`input_touch_handler`), concatenating the posted events. -/
def run_taps : Nat → PanelManagerState → PanelManagerState × List PanelEvent
  | 0, s => (s, [])
  | n + 1, s =>
      let step := next_panel s
      let rest := run_taps n step.1
      (rest.1, step.2 ++ rest.2)

/-- Run `n` expirations of the 1-second inactivity timer. -/
def run_ticks (config : panel_manager_config_t) :
    Nat → PanelManagerState → PanelManagerState × List PanelEvent
  | 0, s => (s, [])
  | n + 1, s =>
      let step := inactivity_timer_callback config s
      let rest := run_ticks config n step.1
      (rest.1, step.2 ++ rest.2)

/-- The ids carried by the `PANEL_ACTIVATED` events of an event list. -/
def activated_ids (events : List PanelEvent) : List Nat :=
  events.filterMap (fun e =>
    match e with
    | PanelEvent.PANEL_ACTIVATED id => some id
    | PanelEvent.PANEL_DEACTIVATED _ => none)

/-! ## Helper lemmas -/

/-- Auxiliary: testing a bit of a single source bit shifted into place. -/
lemma place_testBit (x j k i : Nat) :
    (((x >>> j) &&& 1) <<< k).testBit i = (x.testBit j && decide (k = i)) := by
  have hb : (x >>> j) &&& 1 = if x.testBit j then 1 else 0 := by
    have h1 : (x >>> j) &&& 1 = (x >>> j) % 2 := Nat.and_one_is_mod _
    have h2 : x.testBit j = decide ((x >>> j) % 2 = 1) := by
      rw [Nat.testBit_to_div_mod, Nat.shiftRight_eq_div_pow]
    rcases Nat.mod_two_eq_zero_or_one (x >>> j) with h | h <;>
      simp [h1, h2, h]
  rw [hb]
  by_cases hx : x.testBit j
  · simp only [hx, if_true, Nat.testBit_shiftLeft, Bool.true_and]
    have h1 : Nat.testBit 1 (i - k) = decide (i - k = 0) := by
      have h2 : (1:Nat) = 2 ^ 0 := rfl
      rw [h2, Nat.testBit_two_pow]
      simp [eq_comm]
    rw [h1, ← Bool.decide_and, decide_eq_decide]
    omega
  · simp only [Bool.not_eq_true] at hx
    simp [hx, Nat.zero_shiftLeft, Nat.zero_testBit]

lemma transpose_8x8_expand (input : Nat) : transpose_8x8 input =
  ((((((((((((((((((((((((((((((((((((((((((((((((((((((((((((((((0 |||
  (((input >>> 0) &&& 1) <<< 56)) |||
  (((input >>> 1) &&& 1) <<< 48)) |||
  (((input >>> 2) &&& 1) <<< 40)) |||
  (((input >>> 3) &&& 1) <<< 32)) |||
  (((input >>> 4) &&& 1) <<< 24)) |||
  (((input >>> 5) &&& 1) <<< 16)) |||
  (((input >>> 6) &&& 1) <<< 8)) |||
  (((input >>> 7) &&& 1) <<< 0)) |||
  (((input >>> 8) &&& 1) <<< 57)) |||
  (((input >>> 9) &&& 1) <<< 49)) |||
  (((input >>> 10) &&& 1) <<< 41)) |||
  (((input >>> 11) &&& 1) <<< 33)) |||
  (((input >>> 12) &&& 1) <<< 25)) |||
  (((input >>> 13) &&& 1) <<< 17)) |||
  (((input >>> 14) &&& 1) <<< 9)) |||
  (((input >>> 15) &&& 1) <<< 1)) |||
  (((input >>> 16) &&& 1) <<< 58)) |||
  (((input >>> 17) &&& 1) <<< 50)) |||
  (((input >>> 18) &&& 1) <<< 42)) |||
  (((input >>> 19) &&& 1) <<< 34)) |||
  (((input >>> 20) &&& 1) <<< 26)) |||
  (((input >>> 21) &&& 1) <<< 18)) |||
  (((input >>> 22) &&& 1) <<< 10)) |||
  (((input >>> 23) &&& 1) <<< 2)) |||
  (((input >>> 24) &&& 1) <<< 59)) |||
  (((input >>> 25) &&& 1) <<< 51)) |||
  (((input >>> 26) &&& 1) <<< 43)) |||
  (((input >>> 27) &&& 1) <<< 35)) |||
  (((input >>> 28) &&& 1) <<< 27)) |||
  (((input >>> 29) &&& 1) <<< 19)) |||
  (((input >>> 30) &&& 1) <<< 11)) |||
  (((input >>> 31) &&& 1) <<< 3)) |||
  (((input >>> 32) &&& 1) <<< 60)) |||
  (((input >>> 33) &&& 1) <<< 52)) |||
  (((input >>> 34) &&& 1) <<< 44)) |||
  (((input >>> 35) &&& 1) <<< 36)) |||
  (((input >>> 36) &&& 1) <<< 28)) |||
  (((input >>> 37) &&& 1) <<< 20)) |||
  (((input >>> 38) &&& 1) <<< 12)) |||
  (((input >>> 39) &&& 1) <<< 4)) |||
  (((input >>> 40) &&& 1) <<< 61)) |||
  (((input >>> 41) &&& 1) <<< 53)) |||
  (((input >>> 42) &&& 1) <<< 45)) |||
  (((input >>> 43) &&& 1) <<< 37)) |||
  (((input >>> 44) &&& 1) <<< 29)) |||
  (((input >>> 45) &&& 1) <<< 21)) |||
  (((input >>> 46) &&& 1) <<< 13)) |||
  (((input >>> 47) &&& 1) <<< 5)) |||
  (((input >>> 48) &&& 1) <<< 62)) |||
  (((input >>> 49) &&& 1) <<< 54)) |||
  (((input >>> 50) &&& 1) <<< 46)) |||
  (((input >>> 51) &&& 1) <<< 38)) |||
  (((input >>> 52) &&& 1) <<< 30)) |||
  (((input >>> 53) &&& 1) <<< 22)) |||
  (((input >>> 54) &&& 1) <<< 14)) |||
  (((input >>> 55) &&& 1) <<< 6)) |||
  (((input >>> 56) &&& 1) <<< 63)) |||
  (((input >>> 57) &&& 1) <<< 55)) |||
  (((input >>> 58) &&& 1) <<< 47)) |||
  (((input >>> 59) &&& 1) <<< 39)) |||
  (((input >>> 60) &&& 1) <<< 31)) |||
  (((input >>> 61) &&& 1) <<< 23)) |||
  (((input >>> 62) &&& 1) <<< 15)) |||
  (((input >>> 63) &&& 1) <<< 7)) := by
  simp [transpose_8x8, List.range_succ]

set_option maxHeartbeats 2000000 in
/-- C4 universal part, one case per (row, col) pair. -/
lemma transpose_8x8_testBit (input row col : Nat) (hr : row < 8) (hc : col < 8) :
    (transpose_8x8 input).testBit ((7 - col) * 8 + row) =
      input.testBit (row * 8 + col) := by
  interval_cases row <;> interval_cases col <;>
    (rw [transpose_8x8_expand]
     simp only [Nat.testBit_or, place_testBit, Nat.zero_testBit]
     simp)

/-- Effect of `n` consecutive taps: panels unchanged, index advanced
modulo the panel count, and the activated ids walk the registry in
registration order starting after the initial index. -/
lemma run_taps_spec (N : Nat) (hN : 0 < N) :
    ∀ (n : Nat) (s : PanelManagerState), s.panels.length = N →
      s.active_panel_idx < N →
      (run_taps n s).1.panels = s.panels ∧
      (run_taps n s).1.active_panel_idx = (s.active_panel_idx + n) % N ∧
      activated_ids (run_taps n s).2 =
        (List.range n).map
          (fun k => s.panels.getD ((s.active_panel_idx + k + 1) % N) 0) := by
  intro n
  induction n with
  | zero =>
      intro s hlen hidx
      simp [run_taps, Nat.mod_eq_of_lt hidx, activated_ids]
  | succ n ih =>
      intro s hlen hidx
      have hne : ¬ s.panels.length = 0 := by omega
      have hstep : next_panel s =
          ({ s with active_panel_idx := (s.active_panel_idx + 1) % N,
                    inactivity_counter := 0 },
           [PanelEvent.PANEL_DEACTIVATED (s.panels.getD s.active_panel_idx 0),
            PanelEvent.PANEL_ACTIVATED
              (s.panels.getD ((s.active_panel_idx + 1) % N) 0)]) := by
        simp [next_panel, hne, deactivate_panel, activate_panel, hlen]
        omega
      have hidx1 : (s.active_panel_idx + 1) % N < N := Nat.mod_lt _ hN
      obtain ⟨h1, h2, h3⟩ := ih
        { s with active_panel_idx := (s.active_panel_idx + 1) % N,
                 inactivity_counter := 0 } hlen hidx1
      refine ⟨?_, ?_, ?_⟩
      · simpa [run_taps, hstep] using h1
      · rw [run_taps]
        simp only [hstep]
        rw [h2]
        simp only [Nat.mod_add_mod]
        rw [show s.active_panel_idx + 1 + n = s.active_panel_idx + (n + 1) from by omega]
      · rw [run_taps]
        simp only [hstep, activated_ids, List.filterMap_append]
        have h3' := h3
        simp only [activated_ids] at h3'
        rw [h3']
        rw [List.range_succ_eq_map, List.map_cons, List.map_map]
        simp only [List.filterMap_cons, List.filterMap_nil, List.nil_append,
          List.singleton_append]
        have htail : ∀ k : Nat,
            ((s.active_panel_idx + 1) % N + k + 1) % N =
              (s.active_panel_idx + (k + 1) + 1) % N := by
          intro k
          rw [show (s.active_panel_idx + 1) % N + k + 1 =
                (s.active_panel_idx + 1) % N + (k + 1) from by omega,
             Nat.mod_add_mod,
             show s.active_panel_idx + 1 + (k + 1) =
                s.active_panel_idx + (k + 1) + 1 from by omega]
        congr 1
        apply List.map_congr_left
        intro k hk
        simp only [Function.comp_apply, Nat.succ_eq_add_one]
        rw [htail k]

/-- Ticks strictly before the timeout only increment the counter and post
nothing. -/
lemma run_ticks_counting (cfg : panel_manager_config_t) :
    ∀ (m : Nat) (s : PanelManagerState),
      s.inactivity_counter + m < cfg.inactivity_timeout_s →
      run_ticks cfg m s =
        ({ s with inactivity_counter := s.inactivity_counter + m }, []) := by
  intro m
  induction m with
  | zero => intro s h; simp [run_ticks]
  | succ m ih =>
      intro s h
      have hlt : ¬ cfg.inactivity_timeout_s ≤ s.inactivity_counter + 1 := by omega
      have hstep : inactivity_timer_callback cfg s =
          ({ s with inactivity_counter := s.inactivity_counter + 1 }, []) := by
        simp [inactivity_timer_callback, hlt]
      rw [run_ticks]
      simp only [hstep]
      rw [ih { s with inactivity_counter := s.inactivity_counter + 1 } (by simp; omega)]
      simp
      omega

/-- Running `m + n` ticks is running `m` ticks and then `n` more. -/
lemma run_ticks_add (cfg : panel_manager_config_t) (m n : Nat) :
    ∀ s : PanelManagerState,
      run_ticks cfg (m + n) s =
        ((run_ticks cfg n (run_ticks cfg m s).1).1,
         (run_ticks cfg m s).2 ++ (run_ticks cfg n (run_ticks cfg m s).1).2) := by
  induction m with
  | zero => intro s; simp [run_ticks]
  | succ m ih =>
      intro s
      rw [show m + 1 + n = (m + n) + 1 from by omega]
      rw [run_ticks]
      rw [show run_ticks cfg (m + 1) s =
            (let step := inactivity_timer_callback cfg s
             let rest := run_ticks cfg m step.1
             (rest.1, step.2 ++ rest.2)) from rfl]
      simp only []
      rw [ih (inactivity_timer_callback cfg s).1]
      simp [List.append_assoc]

/-- The tick that reaches the timeout while a non-default panel is active
and the default panel is registered performs exactly the
deactivate/activate pair and resets the counter. -/
lemma tick_fires (cfg : panel_manager_config_t) (s : PanelManagerState) (i : Nat)
    (hK : cfg.inactivity_timeout_s ≤ s.inactivity_counter + 1)
    (hlen : ¬ s.panels.length = 0)
    (hcur : ¬ s.panels.getD s.active_panel_idx 0 = cfg.default_panel)
    (hfind : s.panels.findIdx? (fun p => p = cfg.default_panel) = some i) :
    inactivity_timer_callback cfg s =
      ({ s with active_panel_idx := i, inactivity_counter := 0 },
       [PanelEvent.PANEL_DEACTIVATED (s.panels.getD s.active_panel_idx 0),
        PanelEvent.PANEL_ACTIVATED cfg.default_panel]) := by
  have hcur' : ¬ s.panels[s.active_panel_idx]?.getD 0 = cfg.default_panel := by
    rw [← List.getD_eq_getElem?_getD]
    exact hcur
  simp [inactivity_timer_callback, hK, hlen, hcur', hfind,
        deactivate_panel, activate_panel, List.getD_eq_getElem?_getD]

/-- A tick while the default panel is active posts no event and leaves the
registry and active index unchanged. -/
lemma tick_default_silent (cfg : panel_manager_config_t) (s : PanelManagerState)
    (hdef : s.panels.getD s.active_panel_idx 0 = cfg.default_panel) :
    (inactivity_timer_callback cfg s).2 = [] ∧
    (inactivity_timer_callback cfg s).1.panels = s.panels ∧
    (inactivity_timer_callback cfg s).1.active_panel_idx = s.active_panel_idx := by
  unfold inactivity_timer_callback
  by_cases hK : cfg.inactivity_timeout_s ≤ s.inactivity_counter + 1
  · rw [if_pos hK]
    by_cases hlen : s.panels.length = 0
    · rw [if_pos hlen]
      exact ⟨rfl, rfl, rfl⟩
    · rw [if_neg hlen]
      have hdef' : s.panels[s.active_panel_idx]?.getD 0 = cfg.default_panel := by
        rw [← List.getD_eq_getElem?_getD]
        exact hdef
      simp [hdef']
  · rw [if_neg hK]
    exact ⟨rfl, rfl, rfl⟩

/-- Any number of ticks while the default panel is active posts no event. -/
lemma run_ticks_default_silent (cfg : panel_manager_config_t) :
    ∀ (m : Nat) (s : PanelManagerState),
      s.panels.getD s.active_panel_idx 0 = cfg.default_panel →
      (run_ticks cfg m s).2 = [] := by
  intro m
  induction m with
  | zero => intro s h; simp [run_ticks]
  | succ m ih =>
      intro s h
      obtain ⟨he, hp, hi⟩ := tick_default_silent cfg s h
      rw [run_ticks]
      simp only [he, List.nil_append]
      apply ih
      rw [hp, hi]
      exact h

/-- Whenever a tick reaches the timeout, the counter is reset, in every
branch of the callback. -/
lemma tick_timeout_resets (cfg : panel_manager_config_t) (st : PanelManagerState)
    (h : cfg.inactivity_timeout_s ≤ st.inactivity_counter + 1) :
    (inactivity_timer_callback cfg st).1.inactivity_counter = 0 := by
  unfold inactivity_timer_callback
  rw [if_pos h]
  by_cases hlen : st.panels.length = 0
  · rw [if_pos hlen]
  · rw [if_neg hlen]
    by_cases hcur : st.panels[st.active_panel_idx]?.getD 0 = cfg.default_panel
    · simp [hcur, List.getD_eq_getElem?_getD]
    · simp only [List.getD_eq_getElem?_getD, hcur, ne_eq, not_false_iff, if_true]
      cases hfind : st.panels.findIdx? (fun p => p = cfg.default_panel) <;>
        simp [activate_panel, deactivate_panel]

/-- The `getLastD` of a nonempty list does not depend on the default. -/
lemma getLastD_default_irrel (l : List Nat) (a d d' : Nat) :
    (a :: l).getLastD d = (a :: l).getLastD d' := by
  cases l with
  | nil => rfl
  | cons b l =>
      have h1 : (a :: b :: l).getLastD d = (b :: l).getLastD a :=
        List.getLastD_cons _ _ _
      have h2 : (a :: b :: l).getLastD d' = (b :: l).getLastD a :=
        List.getLastD_cons _ _ _
      rw [h1, h2]

/-- `get_text_width` computes exactly the measurement formula of the spec:
sum of `get_char` widths of all but the last character plus the
`get_char_last` width of the last one. -/
lemma text_width_refines
    (font : font_t) (text : List Nat) (h : text ≠ []) :
    get_text_width text font = text_width_spec text font := by
  induction text with
  | nil => exact absurd rfl h
  | cons ch rest ih =>
      cases rest with
      | nil =>
          rw [show get_text_width [ch] font =
                (if 0 < font.get_char_last ch then font.get_char_last ch
                 else 0) + 0 from by simp [get_text_width]]
          simp only [text_width_spec]
          rw [show ([ch] : List Nat).getLastD 0 = ch from rfl,
              show ([ch] : List Nat).dropLast = [] from rfl]
          simp only [List.map_nil, List.sum_nil]
          split <;> omega
      | cons ch2 rest2 =>
          have ih' := ih (by simp)
          rw [show get_text_width (ch :: ch2 :: rest2) font =
                (if 0 < font.get_char ch then font.get_char ch else 0) +
                  get_text_width (ch2 :: rest2) font from by
              simp [get_text_width]]
          rw [ih']
          simp only [text_width_spec]
          rw [show (ch :: ch2 :: rest2).dropLast =
                ch :: (ch2 :: rest2).dropLast from rfl]
          rw [List.map_cons, List.sum_cons]
          rw [show (ch :: ch2 :: rest2).getLastD 0 =
                (ch2 :: rest2).getLastD ch from List.getLastD_cons _ _ _]
          rw [getLastD_default_irrel rest2 ch2 ch 0]
          split <;> omega

/-! ## Claim theorems -/

/-- C1: the claim says that after a completed long press the one-shot timer
is restored to the 200 ms threshold regardless of whether the release was
observed by a polling expiry or by a release edge in the ISR.  The code
violates this: on the realizable trace below (debounce 50 ms), a long press
ends with a release edge handled by `gpio_isr_handler`, which stops the
timer but never restores its period, leaving it at the 50 ms polling period
— unlike `release_timer_callback`, whose polling path does restore it
(last conjunct). -/
theorem isr_release_skips_period_restore :
    touch_valid 50 touch_init_state 0
      [Stim.edge 1000 true, Stim.fire 1200 true, Stim.edge 1230 false] = true ∧
    (touch_run 50 touch_init_state
      [Stim.edge 1000 true, Stim.fire 1200 true, Stim.edge 1230 false]).2 =
      [GestureEvent.INPUT_LONG_PRESS, GestureEvent.INPUT_RELEASE] ∧
    (touch_run 50 touch_init_state
      [Stim.edge 1000 true, Stim.fire 1200 true, Stim.edge 1230 false]).1.timer_period
      = POLL_PERIOD_MS ∧
    ¬ POLL_PERIOD_MS = LONG_PRESS_MS ∧
    (touch_run 50 touch_init_state
      [Stim.edge 1000 true, Stim.fire 1200 true, Stim.fire 1250 false]).2 =
      [GestureEvent.INPUT_LONG_PRESS, GestureEvent.INPUT_RELEASE] ∧
    (touch_run 50 touch_init_state
      [Stim.edge 1000 true, Stim.fire 1200 true, Stim.fire 1250 false]).1.timer_period
      = LONG_PRESS_MS := by
  decide

/-- C2: the claim says every press held at least T gets its single
`LongPressStart` approximately T = 200 ms after the accepted press edge.
On the realizable trace below, the press at t = 1300 (which follows a long
press whose release was observed by the ISR, so the timer period was left
at 50 ms) is held pressed, and its `INPUT_LONG_PRESS` fires at the timer
expiry t = 1350, i.e. 50 ms — not 200 ms — after the press edge. -/
theorem next_press_long_press_at_poll_period :
    touch_valid 50 touch_init_state 0
      [Stim.edge 1000 true, Stim.fire 1200 true, Stim.edge 1230 false,
       Stim.edge 1300 true, Stim.fire 1350 true] = true ∧
    (touch_run 50 touch_init_state
      [Stim.edge 1000 true, Stim.fire 1200 true, Stim.edge 1230 false,
       Stim.edge 1300 true, Stim.fire 1350 true]).2 =
      [GestureEvent.INPUT_LONG_PRESS, GestureEvent.INPUT_RELEASE,
       GestureEvent.INPUT_LONG_PRESS] ∧
    (touch_run 50 touch_init_state
      [Stim.edge 1000 true, Stim.fire 1200 true, Stim.edge 1230 false,
       Stim.edge 1300 true]).1.timer_armed = true ∧
    (touch_run 50 touch_init_state
      [Stim.edge 1000 true, Stim.fire 1200 true, Stim.edge 1230 false,
       Stim.edge 1300 true]).1.timer_expiry = 1300 + POLL_PERIOD_MS ∧
    ¬ (1300 + POLL_PERIOD_MS : Nat) = 1300 + LONG_PRESS_MS := by
  decide

/-- C5: the claim says every accepted press/release pair strictly less
than T = 200 ms apart yields exactly one Tap and no long-press events.
The code violates this in a reachable state: on the realizable trace below
(debounce 50 ms), a long press ends with an ISR-observed release, which
leaves the one-shot timer period at 50 ms.  The next press at t = 1300 is
released at t = 1430 — both edges accepted, 130 ms apart, strictly less
than T — yet the classifier emits `INPUT_LONG_PRESS` (at the 50 ms timer
expiry) followed by `INPUT_RELEASE`, and no `INPUT_TAP` at all for that
press. -/
theorem short_press_after_isr_release_no_tap :
    touch_valid 50 touch_init_state 0
      [Stim.edge 1000 true, Stim.fire 1200 true, Stim.edge 1230 false,
       Stim.edge 1300 true, Stim.fire 1350 true, Stim.fire 1400 true,
       Stim.edge 1430 false] = true ∧
    (touch_run 50 touch_init_state
      [Stim.edge 1000 true, Stim.fire 1200 true, Stim.edge 1230 false,
       Stim.edge 1300 true, Stim.fire 1350 true, Stim.fire 1400 true,
       Stim.edge 1430 false]).2 =
      [GestureEvent.INPUT_LONG_PRESS, GestureEvent.INPUT_RELEASE,
       GestureEvent.INPUT_LONG_PRESS, GestureEvent.INPUT_RELEASE] ∧
    (1430 : Nat) - 1300 < LONG_PRESS_MS ∧
    (50 : Nat) ≤ 1430 - 1300 ∧
    ¬ GestureEvent.INPUT_TAP ∈ (touch_run 50 touch_init_state
      [Stim.edge 1000 true, Stim.fire 1200 true, Stim.edge 1230 false,
       Stim.edge 1300 true, Stim.fire 1350 true, Stim.fire 1400 true,
       Stim.edge 1430 false]).2 := by
  decide

/-- C6: an edge of either polarity arriving within the debounce window of
the last accepted edge is discarded entirely by `gpio_isr_handler`: no
event is posted and the state — including the debounce reference time
`last_touch_time` — is unchanged. -/
theorem debounced_edge_is_discarded (D now : Nat) (level : Bool)
    (s : TouchState) (h : now - s.last_touch_time < D) :
    gpio_isr_handler D now level s = (s, []) := by
  simp [gpio_isr_handler, h]

/-- C6 witness: an edge 10 ms after the last accepted edge with a 50 ms
debounce window is dropped with the state intact. -/
theorem debounced_edge_is_discarded_witness :
    (110 : Nat) -
      ({ last_touch_time := 100, is_pressed := false,
         long_press_detected := false, timer_armed := false,
         timer_period := 200, timer_expiry := 0 } : TouchState).last_touch_time
      < 50 ∧
    gpio_isr_handler 50 110 true
      { last_touch_time := 100, is_pressed := false,
        long_press_detected := false, timer_armed := false,
        timer_period := 200, timer_expiry := 0 } =
      ({ last_touch_time := 100, is_pressed := false,
         long_press_detected := false, timer_armed := false,
         timer_period := 200, timer_expiry := 0 }, []) :=
  ⟨by decide,
   debounced_edge_is_discarded 50 110 true
     { last_touch_time := 100, is_pressed := false,
       long_press_detected := false, timer_armed := false,
       timer_period := 200, timer_expiry := 0 } (by decide)⟩

/-- C10: if the press is accepted but the release edge falls inside the
debounce window (so the release interrupt is discarded), the threshold
timer still fires at T after the press, samples the signal as released,
and emits exactly one `INPUT_TAP`, returning to idle with the timer
disarmed and no long-press events. -/
theorem debounced_release_tap_on_expiry (D : Nat) (s : TouchState)
    (t0 t1 : Nat)
    (hpressed : s.is_pressed = false)
    (harmed : s.timer_armed = false)
    (hperiod : s.timer_period = LONG_PRESS_MS)
    (hmono : s.last_touch_time ≤ t0)
    (hacc0 : D ≤ t0 - s.last_touch_time)
    (h01 : t0 ≤ t1)
    (hdeb : t1 - t0 < D)
    (hD : D ≤ LONG_PRESS_MS) :
    touch_valid D s s.last_touch_time
      [Stim.edge t0 true, Stim.edge t1 false,
       Stim.fire (t0 + LONG_PRESS_MS) false] = true ∧
    (touch_run D s [Stim.edge t0 true, Stim.edge t1 false,
       Stim.fire (t0 + LONG_PRESS_MS) false]).2 =
      [GestureEvent.INPUT_TAP] ∧
    (touch_run D s [Stim.edge t0 true, Stim.edge t1 false,
       Stim.fire (t0 + LONG_PRESS_MS) false]).1.is_pressed = false ∧
    (touch_run D s [Stim.edge t0 true, Stim.edge t1 false,
       Stim.fire (t0 + LONG_PRESS_MS) false]).1.long_press_detected = false ∧
    (touch_run D s [Stim.edge t0 true, Stim.edge t1 false,
       Stim.fire (t0 + LONG_PRESS_MS) false]).1.timer_armed = false := by
  have h0 : ¬(t0 - s.last_touch_time < D) := by omega
  have h1 : t1 - t0 < D := hdeb
  have h2 : t1 ≤ t0 + LONG_PRESS_MS := by omega
  simp [touch_run, touch_step, touch_valid, gpio_isr_handler,
        release_timer_callback, Stim.time, h0, h1, hpressed, harmed, hperiod,
        hmono, h01, h2]

/-- C10 witness: press at t = 100, bounced release at t = 120 inside the
50 ms window, timer expiry at t = 300 emits the tap. -/
theorem debounced_release_tap_on_expiry_witness :
    (120 : Nat) - 100 < 50 ∧
    (touch_run 50 touch_init_state
      [Stim.edge 100 true, Stim.edge 120 false, Stim.fire (100 + 200) false]).2
      = [GestureEvent.INPUT_TAP] :=
  ⟨by decide,
   by
     have h := (debounced_release_tap_on_expiry 50 touch_init_state 100 120
       rfl rfl rfl (by decide) (by decide) (by decide) (by decide)
       (by decide)).2.1
     simpa using h⟩

/-- C3 counterexample: the claim says every font's last-character lookup
omits the trailing spacing column, so the last character would contribute
its base glyph width.  For the default font this is false: `get_char_last`
is the same function as `get_char`, so for the string "A" (base glyph
width 3) the computed text width is 4, not 3. -/
theorem default_font_last_char_keeps_spacing :
    get_text_width [65] font_default = 4 ∧
    DEFAULT_FONT_CHAR_WIDTH.getD 65 0 = 3 ∧
    font_default.get_char_last 65 = DEFAULT_FONT_CHAR_WIDTH.getD 65 0 + 1 ∧
    ¬ get_text_width [65] font_default = DEFAULT_FONT_CHAR_WIDTH.getD 65 0 := by
  decide

/-- C3 amended: for every string and font, `get_text_width` is the sum of
the `get_char` widths of all but the last character plus the
`get_char_last` width of the last; the dotmatrix-small font's
last-character lookup omits the trailing spacing column for the characters
it covers (returning the base width), but the default font's last-character
lookup is its ordinary lookup and includes the spacing column (base width
plus one). -/
theorem get_text_width_amended :
    (∀ (font : font_t) (text : List Nat), text ≠ [] →
      get_text_width text font = text_width_spec text font) ∧
    (∀ ch, ¬ DOTMATRIX_SMALL_CHAR_WIDTH.getD ch 0 = 0 →
      font_dotmatrix_small.get_char_last ch =
        DOTMATRIX_SMALL_CHAR_WIDTH.getD ch 0) ∧
    (∀ ch, ¬ DEFAULT_FONT_CHAR_WIDTH.getD ch 0 = 0 →
      font_default.get_char_last ch =
        DEFAULT_FONT_CHAR_WIDTH.getD ch 0 + 1) := by
  refine ⟨text_width_refines, ?_, ?_⟩
  · intro ch h
    have h' : ¬ DOTMATRIX_SMALL_CHAR_WIDTH[ch]?.getD 0 = 0 := by
      rw [← List.getD_eq_getElem?_getD]
      exact h
    simp [font_dotmatrix_small, dotmatrix_small_font_get_char_last_width,
          List.getD_eq_getElem?_getD, h']
  · intro ch h
    have h' : ¬ DEFAULT_FONT_CHAR_WIDTH[ch]?.getD 0 = 0 := by
      rw [← List.getD_eq_getElem?_getD]
      exact h
    simp [font_default, default_font_get_char_width,
          List.getD_eq_getElem?_getD, h']

/-- C3 amended witness: the formula and both last-lookup behaviours at the
string "AB" (65, 66). -/
theorem get_text_width_amended_witness :
    ([65, 66] : List Nat) ≠ [] ∧
    get_text_width [65, 66] font_dotmatrix_small =
      text_width_spec [65, 66] font_dotmatrix_small ∧
    font_dotmatrix_small.get_char_last 66 = 3 ∧
    font_default.get_char_last 66 = 4 :=
  ⟨by decide,
   get_text_width_amended.1 font_dotmatrix_small [65, 66] (by decide),
   by
     have h := get_text_width_amended.2.1 66 (by decide)
     simpa using h,
   by
     have h := get_text_width_amended.2.2 66 (by decide)
     simpa using h⟩

/-- C4: `transpose_8x8` maps the bit at `(row, col)` of the input block to
`(7 - col, row)` of the output — a 90° rotation, not a pure transpose —
and the transform is not self-inverse: applying it twice to the block with
only bit 0 set does not reproduce that block. -/
theorem transpose_8x8_rotation :
    (∀ input row col, row < 8 → col < 8 →
      (transpose_8x8 input).testBit ((7 - col) * 8 + row) =
        input.testBit (row * 8 + col)) ∧
    ¬ transpose_8x8 (transpose_8x8 1) = 1 := by
  exact ⟨fun input row col hr hc => transpose_8x8_testBit input row col hr hc,
         by decide⟩

/-- C4 witness: the rotation equation at block `1 <<< 42`, row 5, col 2. -/
theorem transpose_8x8_rotation_witness :
    (5 : Nat) < 8 ∧ (2 : Nat) < 8 ∧
    (transpose_8x8 (1 <<< 42)).testBit ((7 - 2) * 8 + 5) =
      (1 <<< 42 : Nat).testBit (5 * 8 + 2) :=
  ⟨by decide, by decide,
   transpose_8x8_rotation.1 (1 <<< 42) 5 2 (by decide) (by decide)⟩

/-- C9: `max7219_driver_render` transmits the cascade blocks in reverse
logical order: the i-th `max7219_draw_image_8x8` call writes, at position
`i * 8` (physical module `i`), the 90°-rotated logical buffer block
`3 - i`; in particular the first logical block is written into the last
physical module. -/
theorem render_transmits_blocks_reversed (buf : List Nat) :
    (∀ i, i < 4 →
      (max7219_driver_render_wire buf).getD i (0, 0) =
        (i * 8, transpose_8x8 (buf.getD (3 - i) 0))) ∧
    ((max7219_driver_render_wire buf).getD 3 (0, 0)).2 =
      transpose_8x8 (buf.getD 0 0) ∧
    max7219_device_index ((max7219_driver_render_wire buf).getD 3 (0, 0)).1
      = 3 := by
  refine ⟨?_, by rfl,
    by simp [max7219_driver_render_wire, max7219_device_index,
             MAX7219_CASCADE, List.range_succ]⟩
  intro i hi
  interval_cases i <;> rfl

/-- C9 witness: the transmission at physical module 1 for a concrete
4-block buffer carries rotated logical block 2. -/
theorem render_transmits_blocks_reversed_witness :
    (1 : Nat) < 4 ∧
    (max7219_driver_render_wire [3, 5, 7, 9]).getD 1 (0, 0) =
      (1 * 8, transpose_8x8 (([3, 5, 7, 9] : List Nat).getD (3 - 1) 0)) :=
  ⟨by decide, (render_transmits_blocks_reversed [3, 5, 7, 9]).1 1 (by decide)⟩

/-- C8: with N panels registered (1 ≤ N ≤ 8) and a valid active index, each
Tap advances the active index by one modulo N, N consecutive Taps visit
every registered panel in registration order (the activated ids walk the
registry cyclically), and the active index returns to its original value. -/
theorem taps_cycle_all_panels (s : PanelManagerState) (N : Nat)
    (hlen : s.panels.length = N) (h1 : 1 ≤ N) (h8 : N ≤ 8)
    (hidx : s.active_panel_idx < N) :
    (∀ n : Nat,
      (run_taps n s).1.active_panel_idx = (s.active_panel_idx + n) % N) ∧
    (run_taps N s).1.active_panel_idx = s.active_panel_idx ∧
    activated_ids (run_taps N s).2 =
      (List.range N).map
        (fun k => s.panels.getD ((s.active_panel_idx + k + 1) % N) 0) := by
  have hN : 0 < N := h1
  refine ⟨?_, ?_, ?_⟩
  · intro n
    exact (run_taps_spec N hN n s hlen hidx).2.1
  · rw [(run_taps_spec N hN N s hlen hidx).2.1, Nat.add_mod_right,
        Nat.mod_eq_of_lt hidx]
  · exact (run_taps_spec N hN N s hlen hidx).2.2

/-- C8 witness: three panels, three taps, active index back to 1 and all
three panels activated in registration order. -/
theorem taps_cycle_all_panels_witness :
    ({ panels := [5, 7, 9], active_panel_idx := 1, inactivity_counter := 3 } : PanelManagerState).panels.length = 3 ∧
    (run_taps 3 { panels := [5, 7, 9], active_panel_idx := 1, inactivity_counter := 3 }).1.active_panel_idx = 1 ∧
    activated_ids (run_taps 3 { panels := [5, 7, 9], active_panel_idx := 1, inactivity_counter := 3 }).2 = [9, 5, 7] := by
  have h := taps_cycle_all_panels
    { panels := [5, 7, 9], active_panel_idx := 1, inactivity_counter := 3 }
    3 rfl (by decide) (by decide) (by decide)
  refine ⟨rfl, h.2.1, ?_⟩
  rw [h.2.2]
  decide

/-- C7: with timeout K ≥ 1, counter just reset by an activation, a
non-default panel active and the default panel registered at index i: the
first K−1 ticks only count and post nothing, the K-th tick performs exactly
one Deactivated/Activated transition to the default panel and resets the
counter, every subsequent tick while the default panel is active posts no
event, and any tick that reaches the timeout resets the counter whether or
not a transition occurred. -/
theorem inactivity_timeout_single_transition (cfg : panel_manager_config_t)
    (s : PanelManagerState) (i : Nat)
    (hc0 : s.inactivity_counter = 0)
    (hK : 1 ≤ cfg.inactivity_timeout_s)
    (hlen : 0 < s.panels.length)
    (hcur : ¬ s.panels.getD s.active_panel_idx 0 = cfg.default_panel)
    (hfind : s.panels.findIdx? (fun p => p = cfg.default_panel) = some i)
    (hgeti : s.panels.getD i 0 = cfg.default_panel) :
    (∀ m, m < cfg.inactivity_timeout_s →
        run_ticks cfg m s = ({ s with inactivity_counter := m }, [])) ∧
    run_ticks cfg cfg.inactivity_timeout_s s =
      ({ s with active_panel_idx := i, inactivity_counter := 0 },
       [PanelEvent.PANEL_DEACTIVATED (s.panels.getD s.active_panel_idx 0),
        PanelEvent.PANEL_ACTIVATED cfg.default_panel]) ∧
    (∀ m, (run_ticks cfg m
        ({ s with active_panel_idx := i, inactivity_counter := 0 })).2 = []) ∧
    (∀ st : PanelManagerState,
        cfg.inactivity_timeout_s ≤ st.inactivity_counter + 1 →
        (inactivity_timer_callback cfg st).1.inactivity_counter = 0) := by
  refine ⟨?_, ?_, ?_, ?_⟩
  · intro m hm
    have h := run_ticks_counting cfg m s (by omega)
    rw [h, hc0]
    simp
  · rw [show cfg.inactivity_timeout_s = (cfg.inactivity_timeout_s - 1) + 1
        from by omega,
        run_ticks_add]
    have hpre := run_ticks_counting cfg (cfg.inactivity_timeout_s - 1) s
      (by omega)
    rw [hpre]
    have hfire := tick_fires cfg
      { s with inactivity_counter := s.inactivity_counter +
          (cfg.inactivity_timeout_s - 1) } i
      (by show cfg.inactivity_timeout_s ≤
            s.inactivity_counter + (cfg.inactivity_timeout_s - 1) + 1
          omega)
      (by show ¬ s.panels.length = 0
          omega)
      (by show ¬ s.panels.getD s.active_panel_idx 0 = cfg.default_panel
          exact hcur)
      (by show s.panels.findIdx? (fun p => p = cfg.default_panel) = some i
          exact hfind)
    rw [show run_ticks cfg 1 = fun st =>
          ((inactivity_timer_callback cfg st).1,
           (inactivity_timer_callback cfg st).2 ++ []) from rfl]
    simp only [hfire]
    simp
  · intro m
    apply run_ticks_default_silent
    simpa using hgeti
  · intro st h
    exact tick_timeout_resets cfg st h

/-- C7 witness: default panel 0 at index 1, timeout 2: two ticks produce
exactly the transition back to the default panel with the counter reset. -/
theorem inactivity_timeout_single_transition_witness :
    (1 : Nat) ≤
      ({ default_panel := 0, inactivity_timeout_s := 2 } :
        panel_manager_config_t).inactivity_timeout_s ∧
    run_ticks { default_panel := 0, inactivity_timeout_s := 2 } 2
      { panels := [1, 0], active_panel_idx := 0, inactivity_counter := 0 } =
      ({ panels := [1, 0], active_panel_idx := 1, inactivity_counter := 0 },
       [PanelEvent.PANEL_DEACTIVATED 1, PanelEvent.PANEL_ACTIVATED 0]) := by
  have h := (inactivity_timeout_single_transition
    { default_panel := 0, inactivity_timeout_s := 2 }
    { panels := [1, 0], active_panel_idx := 0, inactivity_counter := 0 }
    1 rfl (by decide) (by decide) (by decide) (by decide) (by decide)).2.1
  exact ⟨by decide, by simpa using h⟩

end Timemachine
